import Mathlib

/-!
Shallow embedding of the GP22 TDC driver (dual-channel variant of the
`GP22` class).  The shadow register file `_config` is a 7-by-4 array of
bytes; bytes are modelled as `Nat` values below 256, the 16-bit status
word as a `Nat`, and the `float` conversion factor as an exact rational
(`ℚ`): the C++ code computes it from exactly representable constants and
the claims are about the algebraic value of the product.
Each `set.../get...` member function of the class is translated line by
line from the source.
-/

set_option maxRecDepth 100000

namespace GP22

/-- Arduino macro bitSet: set bit `bit` of byte `value`. -/
def bitSet (value bit : Nat) : Nat :=
  value ||| (1 <<< bit)

/-- Arduino macro bitClear on an 8-bit value: clear bit `bit`
(the C form `value &= ~(1 << bit)` on a `uint8_t`). -/
def bitClear (value bit : Nat) : Nat :=
  value &&& (255 ^^^ (1 <<< bit))

/-- Arduino macro bitWrite: write `bitvalue` (zero / nonzero) into bit `bit`. -/
def bitWrite (value bit bitvalue : Nat) : Nat :=
  if bitvalue != 0 then bitSet value bit else bitClear value bit

/-- Truncation of a C `int` value to `int8_t` (two's-complement wraparound),
as performed on assignment to an `int8_t` variable. -/
def toInt8 (x : Int) : Int :=
  (x + 128) % 256 - 128

/-- C bitwise NOT applied to a `uint8_t` after the usual integer promotion
to `int`: `~x` equals `-x - 1` at `int` width. -/
def cNot (x : Nat) : Int :=
  -(x : Int) - 1

/-- One 4-byte configuration register `_config[i][0..3]`; byte `b0` is
`_config[i][0]`, the most significant byte of the register. -/
structure Reg where
  b0 : Nat
  b1 : Nat
  b2 : Nat
  b3 : Nat
  deriving DecidableEq, Repr

/-- The shadow register file `_config[7][4]`. -/
structure Config where
  reg0 : Reg
  reg1 : Reg
  reg2 : Reg
  reg3 : Reg
  reg4 : Reg
  reg5 : Reg
  reg6 : Reg
  deriving DecidableEq, Repr

/-- The state of a `GP22` driver object: the shadow register file, the
cached status word `_status` and the cached `_conversionFactor`. -/
structure GP22State where
  config : Config
  status : Nat
  conversionFactor : ℚ
  deriving DecidableEq, Repr

/-- The `Channel` enum of the header. -/
inductive Channel where
  | CH1
  | CH2
  deriving DecidableEq, Repr

/-- The default register contents of the dual-channel variant
(initializer of `_config` in GP22.h). -/
def defaultConfig : Config :=
  { reg0 := { b0 := 0xF3, b1 := 0x07, b2 := 0x68, b3 := 0x00 }
    reg1 := { b0 := 0x21, b1 := 0x42, b2 := 0x00, b3 := 0x00 }
    reg2 := { b0 := 0x20, b1 := 0x00, b2 := 0x00, b3 := 0x00 }
    reg3 := { b0 := 0x20, b1 := 0x00, b2 := 0x00, b3 := 0x00 }
    reg4 := { b0 := 0x20, b1 := 0x00, b2 := 0x00, b3 := 0x00 }
    reg5 := { b0 := 0x40, b1 := 0x00, b2 := 0x00, b3 := 0x00 }
    reg6 := { b0 := 0x40, b1 := 0x20, b2 := 0x60, b3 := 0x00 } }

/-- GP22::getMeasurementMode: `return (_config[0][2] & B00001000) > 0;`.
The C++ `bool` result is converted to the `uint8_t` return type, so the
function yields 0 or 1. -/
def getMeasurementMode (s : GP22State) : Nat :=
  if 0 < s.config.reg0.b2 &&& 0x08 then 1 else 0

/-- GP22::getClkPreDiv: decode bits 4-5 of `_config[0][1]` through the
switch on `divRaw` (`div` is initialised to 0 before the switch). -/
def getClkPreDiv (s : GP22State) : Nat :=
  let divRaw := (s.config.reg0.b1 &&& 0x30) >>> 4
  match divRaw with
  | 0 => 1
  | 1 => 2
  | 2 => 4
  | 3 => 4
  | _ => 0

/-- GP22::updateConversionFactor: `_conversionFactor = tRef * qConv *
timeBase * N` with `qConv = pow(2.0, -16)`, `tRef = 1.0 / 4000000.0`,
`timeBase = 1000000.0` and `N = getClkPreDiv()` (floats modelled as exact
rationals). -/
def updateConversionFactor (s : GP22State) : GP22State :=
  let qConv : ℚ := 1 / 2 ^ 16
  let tRef : ℚ := 1 / 4000000
  let timeBase : ℚ := 1000000
  let N : ℚ := getClkPreDiv s
  { s with conversionFactor := tRef * qConv * timeBase * N }

/-- The GP22 constructor: default register file, and the conversion
factor precalculated by `updateConversionFactor()`. -/
def mkGP22 : GP22State :=
  updateConversionFactor { config := defaultConfig, status := 0, conversionFactor := 0 }

/-- GP22::measConv: `return ((float)input) * _conversionFactor;`. -/
def measConv (s : GP22State) (input : Int) : ℚ :=
  (input : ℚ) * s.conversionFactor

/-- GP22::readStatus: `_status = transfer2B(0xB4, 0x00, 0x00);`.  The two
response bytes of the SPI transfer are parameters; `transfer2B` packs
them as `bit8[1] = byte1; bit8[0] = byte2` of a little-endian 16-bit
word, i.e. `byte1 * 256 + byte2`. -/
def readStatus (s : GP22State) (byte1 byte2 : Nat) : GP22State :=
  { s with status := (byte1 % 256) * 256 + (byte2 % 256) }

/-- GP22::timedOut: `return (_status & 0x0600) > 0;`. -/
def timedOut (s : GP22State) : Bool :=
  decide (0 < s.status &&& 0x0600)

/-- GP22::getMeasuredHits. -/
def getMeasuredHits (s : GP22State) (channel : Channel) : Nat :=
  match channel with
  | Channel.CH1 => (s.status &&& 0x0038) >>> 3
  | Channel.CH2 => (s.status &&& 0x01C0) >>> 6

/-- GP22::getReadPointer: `return _status & 0x0007;`. -/
def getReadPointer (s : GP22State) : Nat :=
  s.status &&& 0x0007

/-- GP22::isDoubleRes: `return (_config[6][2] & B00010000) > 0;`. -/
def isDoubleRes (s : GP22State) : Bool :=
  decide (0 < s.config.reg6.b2 &&& 0x10)

/-- GP22::isQuadRes: `return (_config[6][2] & B00100000) > 0;`. -/
def isQuadRes (s : GP22State) : Bool :=
  decide (0 < s.config.reg6.b2 &&& 0x20)

/-- GP22::isSingleRes: `return !isDoubleRes() && !isQuadRes();`. -/
def isSingleRes (s : GP22State) : Bool :=
  !isDoubleRes s && !isQuadRes s

/-- GP22::setSingleRes: clear bits 4 and 5 of `_config[6][2]`. -/
def setSingleRes (s : GP22State) : GP22State :=
  { s with config := { s.config with
      reg6 := { s.config.reg6 with b2 := bitClear (bitClear s.config.reg6.b2 4) 5 } } }

/-- GP22::setDoubleRes: set bit 4 and clear bit 5 of `_config[6][2]`. -/
def setDoubleRes (s : GP22State) : GP22State :=
  { s with config := { s.config with
      reg6 := { s.config.reg6 with b2 := bitClear (bitSet s.config.reg6.b2 4) 5 } } }

/-- GP22::setQuadRes: guarded by `if (getMeasurementMode() == 2)`; inside
the guard it sets bit 5 and clears bit 4 of `_config[6][2]`. -/
def setQuadRes (s : GP22State) : GP22State :=
  if getMeasurementMode s == 2 then
    { s with config := { s.config with
        reg6 := { s.config.reg6 with b2 := bitClear (bitSet s.config.reg6.b2 5) 4 } } }
  else s

/-- GP22::setMeasurementMode: clears or sets MESSB2 (bit 3 of
`_config[0][2]`); in the `mode == 1` branch, if quad resolution is
currently active it calls `setDoubleRes()` before writing the byte back. -/
def setMeasurementMode (s : GP22State) (mode : Nat) : GP22State :=
  let configPiece := s.config.reg0.b2
  if mode == 1 then
    let configPiece := bitClear configPiece 3
    let s1 := if isQuadRes s then setDoubleRes s else s
    { s1 with config := { s1.config with
        reg0 := { s1.config.reg0 with b2 := configPiece } } }
  else if mode == 2 then
    { s with config := { s.config with
        reg0 := { s.config.reg0 with b2 := bitSet configPiece 3 } } }
  else
    { s with config := { s.config with
        reg0 := { s.config.reg0 with b2 := configPiece } } }

/-- GP22::setClkPreDiv: only 1, 2 and 4 modify bits 4-5 of
`_config[0][1]`; the byte is written back in all cases and
`updateConversionFactor()` runs afterwards unconditionally. -/
def setClkPreDiv (s : GP22State) (div : Nat) : GP22State :=
  let configPiece := s.config.reg0.b1
  let configPiece :=
    if div == 1 || div == 2 || div == 4 then
      let cleared := bitClear (bitClear configPiece 4) 5
      if div == 2 then bitSet cleared 4
      else if div == 4 then bitSet cleared 5
      else cleared
    else configPiece
  updateConversionFactor
    { s with config := { s.config with
        reg0 := { s.config.reg0 with b1 := configPiece } } }

/-- GP22::setExpectedHits: guarded by `hits >= 0 & hits <= 4` (always
0 ≤ hits for the unsigned argument); clears the channel's three bits of
`_config[1][1]` and adds `hits` (CH1) or `hits << 3` (CH2). -/
def setExpectedHits (s : GP22State) (channel : Channel) (hits : Nat) : GP22State :=
  let configPiece := s.config.reg1.b1
  let configPiece :=
    if hits ≤ 4 then
      match channel with
      | Channel.CH1 => (bitClear (bitClear (bitClear configPiece 0) 1) 2 + hits) % 256
      | Channel.CH2 => (bitClear (bitClear (bitClear configPiece 3) 4) 5 + (hits <<< 3)) % 256
    else configPiece
  { s with config := { s.config with
      reg1 := { s.config.reg1 with b1 := configPiece } } }

/-- GP22::getExpectedHits. -/
def getExpectedHits (s : GP22State) (channel : Channel) : Nat :=
  match channel with
  | Channel.CH1 => s.config.reg1.b1 &&& 0x07
  | Channel.CH2 => (s.config.reg1.b1 &&& 0x38) >>> 3

/-- GP22::defineHit1Op: clear bits 0-3 of `_config[1][0]` (the
`bitWrite(configPiece, i, 0)` loop) and add `op`. -/
def defineHit1Op (s : GP22State) (op : Nat) : GP22State :=
  let configPiece := s.config.reg1.b0
  let configPiece := bitWrite (bitWrite (bitWrite (bitWrite configPiece 0 0) 1 0) 2 0) 3 0
  let configPiece := (configPiece + op) % 256
  { s with config := { s.config with
      reg1 := { s.config.reg1 with b0 := configPiece } } }

/-- GP22::defineHit2Op: clear bits 4-7 of `_config[1][0]` and add
`op << 4`. -/
def defineHit2Op (s : GP22State) (op : Nat) : GP22State :=
  let configPiece := s.config.reg1.b0
  let configPiece := bitWrite (bitWrite (bitWrite (bitWrite configPiece 4 0) 5 0) 6 0) 7 0
  let configPiece := (configPiece + (op <<< 4)) % 256
  { s with config := { s.config with
      reg1 := { s.config.reg1 with b0 := configPiece } } }

/-- GP22::updateALUInstruction: state effect of `defineHit1Op` followed by
`defineHit2Op` (the trailing SPI transfer does not touch the state). -/
def updateALUInstruction (s : GP22State) (hit1Op hit2Op : Nat) : GP22State :=
  defineHit2Op (defineHit1Op s hit1Op) hit2Op

/-- GP22::setEdgeSensitivity on `_config[0][2]` and `_config[2][0]`. -/
def setEdgeSensitivity (s : GP22State) (start stop1 stop2 : Nat) : GP22State :=
  let reg0p2 := s.config.reg0.b2
  let reg2p0 := s.config.reg2.b0
  let reg0p2 := if start == 0 || start == 1 then bitWrite reg0p2 0 start else reg0p2
  let reg0p2 :=
    if stop1 == 0 || stop1 == 1 then bitWrite reg0p2 1 stop1
    else if stop1 == 2 then bitClear reg0p2 1
    else reg0p2
  let reg2p0 := if stop1 == 2 then bitSet reg2p0 3 else reg2p0
  let reg0p2 :=
    if stop2 == 0 || stop2 == 1 then bitWrite reg0p2 2 stop2
    else if stop2 == 2 then bitClear reg0p2 2
    else reg0p2
  let reg2p0 := if stop2 == 2 then bitSet reg2p0 4 else reg2p0
  { s with config := { s.config with
      reg0 := { s.config.reg0 with b2 := reg0p2 },
      reg2 := { s.config.reg2 with b0 := reg2p0 } } }

/-- GP22::setAutoCalcOn on bit 7 of `_config[3][0]`. -/
def setAutoCalcOn (s : GP22State) (onOff : Bool) : GP22State :=
  let configPiece := s.config.reg3.b0
  let configPiece := if onOff then bitSet configPiece 7 else bitClear configPiece 7
  { s with config := { s.config with
      reg3 := { s.config.reg3 with b0 := configPiece } } }

/-- GP22::setFirstWaveMode: the body sets bit 6 of `_config[3][0]`
unconditionally; the `on` argument is not consulted. -/
def setFirstWaveMode (s : GP22State) (onOff : Bool) : GP22State :=
  { s with config := { s.config with
      reg3 := { s.config.reg3 with b0 := bitSet s.config.reg3.b0 6 } } }

/-- GP22::isFirstWaveMode: `return (_config[3][0] & B01000000) > 0;`. -/
def isFirstWaveMode (s : GP22State) : Bool :=
  decide (0 < s.config.reg3.b0 &&& 0x40)

/-- GP22::setFirstWaveDelays.  The function loads the four bytes of
register 3 into a local `FourByte configPiece` (bit8[3] is
`_config[3][0]`), computes the three delay fields into the local union
(`bit16[1]` of the little-endian union is `bit8[3] * 256 + bit8[2]`),
and ends without ever storing `configPiece` back into `_config`:
the driver state is returned unchanged. -/
def setFirstWaveDelays (s : GP22State) (stop1 stop2 stop3 : Nat) : GP22State :=
  let bit8_3 := s.config.reg3.b0
  let bit8_2 := s.config.reg3.b1
  let bit8_1 := s.config.reg3.b2
  let bit8_0 := s.config.reg3.b3
  let topBytes := bit8_3 * 256 + bit8_2
  let topBytes := topBytes ^^^ (topBytes &&& 0x03F0)
  let topBytes := (topBytes + (stop3 <<< 4)) % 65536
  let bit8_2 := topBytes &&& 255
  let bit8_3 := topBytes >>> 8
  let middleBytes := (bit8_2 <<< 8) + bit8_1
  let middleBytes := middleBytes ^^^ (middleBytes &&& 0x0FC0)
  let middleBytes := (middleBytes + (stop2 <<< 6)) % 65536
  let bit8_1 := middleBytes &&& 255
  let bit8_2 := (middleBytes >>> 8) &&& 255
  let byte1 := bit8_1
  let byte1 := byte1 ^^^ (byte1 &&& 0x3F)
  let byte1 := (byte1 + stop1) % 256
  let bit8_1 := byte1
  s

/-- GP22::setPulseWidthMeasOn on bit 0 of `_config[4][1]`. -/
def setPulseWidthMeasOn (s : GP22State) (onOff : Bool) : GP22State :=
  let configPiece := s.config.reg4.b1
  let configPiece := if onOff then bitClear configPiece 0 else bitSet configPiece 0
  { s with config := { s.config with
      reg4 := { s.config.reg4 with b1 := configPiece } } }

/-- GP22::setFirstWaveRisingEdge on bit 7 of `_config[4][2]`. -/
def setFirstWaveRisingEdge (s : GP22State) (onOff : Bool) : GP22State :=
  let configPiece := s.config.reg4.b2
  let configPiece := if onOff then bitClear configPiece 7 else bitSet configPiece 7
  { s with config := { s.config with
      reg4 := { s.config.reg4 with b2 := configPiece } } }

/-- GP22::setFirstWaveOffset: range-extension bits 5-6 of `_config[4][2]`
plus a 5-bit two's-complement core field in bits 0-4.  The source first
adjusts `offset` by ±20 inside the same branch that writes the range
bits; both use the incoming value of `offset`, so they are two branches
on the same conditions here. -/
def setFirstWaveOffset (s : GP22State) (offset : Int) : GP22State :=
  let configPiece := s.config.reg4.b2
  let configPiece :=
    if offset > 15 then bitClear (bitSet configPiece 6) 5
    else if offset < -16 then bitClear (bitSet configPiece 5) 6
    else bitClear (bitClear configPiece 5) 6
  let offset :=
    if offset > 15 then offset - 20
    else if offset < -16 then offset + 20
    else offset
  let configPiece := configPiece ^^^ (configPiece &&& 0x1F)
  let configPiece :=
    if 0 < offset ∧ offset ≤ 15 then (configPiece + offset.toNat) % 256
    else if offset < 0 ∧ -16 ≤ offset then
      (configPiece + ((31 + (offset + 1)).toNat % 256)) % 256
    else configPiece
  { s with config := { s.config with
      reg4 := { s.config.reg4 with b2 := configPiece } } }

/-- GP22::getFirstWaveOffset.  `twosComp` is a `uint8_t`; in
`offset = -1 * ((~twosComp) + 1)` the operand is promoted to `int`
before `~`, and the result is truncated to the `int8_t` variable
`offset`.  The two range bits then subtract or add 20. -/
def getFirstWaveOffset (s : GP22State) : Int :=
  let configPiece := s.config.reg4.b2
  let twosComp := configPiece &&& 0x1F
  let offset : Int :=
    if twosComp > 15 then toInt8 (-1 * (cNot twosComp + 1))
    else (twosComp : Int)
  let offset :=
    if 0 < configPiece &&& 0x20 then toInt8 (offset - 20)
    else if 0 < configPiece &&& 0x40 then toInt8 (offset + 20)
    else offset
  offset

/-- States reachable from the freshly constructed driver by the public
mutating operations of the class. -/
inductive Reachable : GP22State → Prop where
  | init : Reachable mkGP22
  | measurementMode (s : GP22State) (mode : Nat) :
      Reachable s → Reachable (setMeasurementMode s mode)
  | clkPreDiv (s : GP22State) (div : Nat) :
      Reachable s → Reachable (setClkPreDiv s div)
  | expectedHits (s : GP22State) (channel : Channel) (hits : Nat) :
      Reachable s → Reachable (setExpectedHits s channel hits)
  | hit1Op (s : GP22State) (op : Nat) :
      Reachable s → Reachable (defineHit1Op s op)
  | hit2Op (s : GP22State) (op : Nat) :
      Reachable s → Reachable (defineHit2Op s op)
  | aluInstruction (s : GP22State) (hit1Op hit2Op : Nat) :
      Reachable s → Reachable (updateALUInstruction s hit1Op hit2Op)
  | edgeSensitivity (s : GP22State) (start stop1 stop2 : Nat) :
      Reachable s → Reachable (setEdgeSensitivity s start stop1 stop2)
  | singleRes (s : GP22State) :
      Reachable s → Reachable (setSingleRes s)
  | doubleRes (s : GP22State) :
      Reachable s → Reachable (setDoubleRes s)
  | quadRes (s : GP22State) :
      Reachable s → Reachable (setQuadRes s)
  | autoCalc (s : GP22State) (onOff : Bool) :
      Reachable s → Reachable (setAutoCalcOn s onOff)
  | firstWaveMode (s : GP22State) (onOff : Bool) :
      Reachable s → Reachable (setFirstWaveMode s onOff)
  | firstWaveDelays (s : GP22State) (stop1 stop2 stop3 : Nat) :
      Reachable s → Reachable (setFirstWaveDelays s stop1 stop2 stop3)
  | pulseWidth (s : GP22State) (onOff : Bool) :
      Reachable s → Reachable (setPulseWidthMeasOn s onOff)
  | firstWaveRisingEdge (s : GP22State) (onOff : Bool) :
      Reachable s → Reachable (setFirstWaveRisingEdge s onOff)
  | firstWaveOffset (s : GP22State) (offset : Int) :
      Reachable s → Reachable (setFirstWaveOffset s offset)
  | status (s : GP22State) (byte1 byte2 : Nat) :
      Reachable s → Reachable (readStatus s byte1 byte2)

/-! Helper lemmas about the byte-level bit operations. -/

lemma pos_lor_and_bit (b i m : Nat) (hm : m = 1 <<< i) :
    0 < (b ||| 1 <<< i) &&& m := by
  subst hm
  rw [Nat.one_shiftLeft, Nat.and_two_pow]
  simp [Nat.testBit_lor, Nat.testBit_two_pow_self, Nat.two_pow_pos]

lemma and_shiftRight_le (x m k : Nat) : (x &&& m) >>> k ≤ m >>> k := by
  rw [Nat.shiftRight_eq_div_pow, Nat.shiftRight_eq_div_pow]
  exact Nat.div_le_div_right Nat.and_le_right

lemma getMeasurementMode_ne_two (s : GP22State) : getMeasurementMode s ≠ 2 := by
  unfold getMeasurementMode
  split <;> omega

lemma setQuadRes_eq (s : GP22State) : setQuadRes s = s := by
  have h : (getMeasurementMode s == 2) = false := by
    simp [getMeasurementMode_ne_two s]
  simp [setQuadRes, h]

lemma isQuadRes_setDoubleRes (s : GP22State) : isQuadRes (setDoubleRes s) = false := by
  simp only [isQuadRes, setDoubleRes, bitClear, decide_eq_false_iff_not]
  rw [Nat.land_assoc, show (255 ^^^ (1 <<< 5)) &&& 0x20 = 0 by decide]
  simp

lemma isDoubleRes_setDoubleRes (s : GP22State) : isDoubleRes (setDoubleRes s) = true := by
  simp only [isDoubleRes, setDoubleRes, bitClear, bitSet, decide_eq_true_eq]
  rw [Nat.land_assoc, show (255 ^^^ (1 <<< 5)) &&& 0x10 = 1 <<< 4 by decide]
  exact pos_lor_and_bit _ 4 _ rfl

lemma isQuadRes_setSingleRes (s : GP22State) : isQuadRes (setSingleRes s) = false := by
  simp only [isQuadRes, setSingleRes, bitClear, decide_eq_false_iff_not]
  rw [Nat.land_assoc, Nat.land_assoc,
    show (255 ^^^ (1 <<< 4)) &&& ((255 ^^^ (1 <<< 5)) &&& 0x20) = 0 by decide]
  simp

lemma isDoubleRes_setSingleRes (s : GP22State) : isDoubleRes (setSingleRes s) = false := by
  simp only [isDoubleRes, setSingleRes, bitClear, decide_eq_false_iff_not]
  rw [Nat.land_assoc, Nat.land_assoc,
    show (255 ^^^ (1 <<< 4)) &&& ((255 ^^^ (1 <<< 5)) &&& 0x10) = 0 by decide]
  simp

/-- Claim C2: the claim asserts `setFirstWaveDelays(stop1, stop2, stop3)`
stores the three 6-bit fields into bits 8-25 of register 3 and that a
subsequent read returns them.  In the code the computed bytes are never
written back to `_config`, so the call leaves the driver state (and in
particular every bit of register 3) unchanged: the function is a no-op. -/
theorem setFirstWaveDelays_noop (s : GP22State) (stop1 stop2 stop3 : Nat) :
    setFirstWaveDelays s stop1 stop2 stop3 = s := rfl

/-- Claim C5: `setQuadRes()` never changes the register file, because its
guard compares `getMeasurementMode()` (which is the `uint8_t` image of a
`bool`, hence 0 or 1) with 2. -/
theorem setQuadRes_never_sets (s : GP22State) :
    setQuadRes s = s ∧ getMeasurementMode s ≠ 2 :=
  ⟨setQuadRes_eq s, getMeasurementMode_ne_two s⟩

/-- Claim C10: `setFirstWaveMode` ignores its boolean argument and always
sets bit 6 of `_config[3][0]`; after `setFirstWaveMode(false)` the query
`isFirstWaveMode()` still returns true. -/
theorem setFirstWaveMode_ignores_argument (s : GP22State) (onOff : Bool) :
    setFirstWaveMode s onOff = setFirstWaveMode s true ∧
    isFirstWaveMode (setFirstWaveMode s false) = true := by
  refine ⟨rfl, ?_⟩
  simp only [isFirstWaveMode, setFirstWaveMode, bitSet, decide_eq_true_eq]
  exact pos_lor_and_bit _ 6 _ (by decide)

/-- Claim C9: after `readStatus`, `timedOut()` is true iff the held status
word masked with 0x0600 is nonzero, the two measured-hit getters and the
read pointer decode the documented masked fields, and each decoded field
is a value in 0..7. -/
theorem status_decode (s : GP22State) (byte1 byte2 : Nat) :
    (timedOut (readStatus s byte1 byte2) = true ↔
      (readStatus s byte1 byte2).status &&& 0x0600 ≠ 0) ∧
    getMeasuredHits (readStatus s byte1 byte2) Channel.CH1 =
      ((readStatus s byte1 byte2).status &&& 0x0038) >>> 3 ∧
    getMeasuredHits (readStatus s byte1 byte2) Channel.CH2 =
      ((readStatus s byte1 byte2).status &&& 0x01C0) >>> 6 ∧
    getReadPointer (readStatus s byte1 byte2) =
      (readStatus s byte1 byte2).status &&& 0x0007 ∧
    getMeasuredHits (readStatus s byte1 byte2) Channel.CH1 ≤ 7 ∧
    getMeasuredHits (readStatus s byte1 byte2) Channel.CH2 ≤ 7 ∧
    getReadPointer (readStatus s byte1 byte2) ≤ 7 := by
  refine ⟨?_, rfl, rfl, rfl, ?_, ?_, ?_⟩
  · simp [timedOut, Nat.pos_iff_ne_zero]
  · exact le_trans (and_shiftRight_le _ 0x0038 3) (by decide)
  · exact le_trans (and_shiftRight_le _ 0x01C0 6) (by decide)
  · exact Nat.and_le_right

/-- Claim C1: the claim asserts the encode/decode pair for the first-wave
offset is inverse on [-36, 35].  It is not: the decoder computes
`-1 * ((~twosComp) + 1)` with `~` taken at C `int` width, which equals
`twosComp` itself rather than the intended 5-bit two's complement, so any
offset whose 5-bit core field is negative decodes wrongly.  At offset -1
(from the default configuration) the stored field is 31 and the decoder
returns 31, not -1. -/
theorem getFirstWaveOffset_decode_bug :
    getFirstWaveOffset (setFirstWaveOffset mkGP22 (-1)) = 31 ∧
    getFirstWaveOffset (setFirstWaveOffset mkGP22 (-1)) ≠ -1 := by decide

/-! Byte-level facts about the expected-hits fields, established over the
range of a `uint8_t`. -/

lemma hits_ch1_byte : ∀ b < 256, ∀ h1, h1 ≤ 4 →
    ((bitClear (bitClear (bitClear b 0) 1) 2 + h1) % 256) &&& 0x07 = h1 ∧
    (((bitClear (bitClear (bitClear b 0) 1) 2 + h1) % 256) &&& 0x38) >>> 3 =
      (b &&& 0x38) >>> 3 := by decide

lemma hits_ch2_byte : ∀ b < 256, ∀ h1, h1 ≤ 4 →
    (((bitClear (bitClear (bitClear b 3) 4) 5 + (h1 <<< 3)) % 256) &&& 0x38) >>> 3 = h1 ∧
    ((bitClear (bitClear (bitClear b 3) 4) 5 + (h1 <<< 3)) % 256) &&& 0x07 =
      b &&& 0x07 := by decide

/-- Claim C8: for hit counts 0..4 and either channel, `setExpectedHits`
followed by `getExpectedHits` on the same channel returns the written
count, and the other channel's stored field is unchanged.  The byte
`_config[1][1]` holds a `uint8_t`, hence the bound `< 256`. -/
theorem expectedHits_roundtrip (s : GP22State) (channel : Channel) (hits : Nat)
    (hb : s.config.reg1.b1 < 256) (hh : hits ≤ 4) :
    getExpectedHits (setExpectedHits s channel hits) channel = hits ∧
    ∀ other : Channel, other ≠ channel →
      getExpectedHits (setExpectedHits s channel hits) other =
        getExpectedHits s other := by
  cases channel with
  | CH1 =>
    refine ⟨?_, ?_⟩
    · simp only [setExpectedHits, getExpectedHits, if_pos hh]
      exact (hits_ch1_byte _ hb _ hh).1
    · intro other hother
      cases other with
      | CH1 => exact absurd rfl hother
      | CH2 =>
        simp only [setExpectedHits, getExpectedHits, if_pos hh]
        exact (hits_ch1_byte _ hb _ hh).2
  | CH2 =>
    refine ⟨?_, ?_⟩
    · simp only [setExpectedHits, getExpectedHits, if_pos hh]
      exact (hits_ch2_byte _ hb _ hh).1
    · intro other hother
      cases other with
      | CH1 =>
        simp only [setExpectedHits, getExpectedHits, if_pos hh]
        exact (hits_ch2_byte _ hb _ hh).2
      | CH2 => exact absurd rfl hother

/-- Witness for the C8 theorem at the default state, channel 1, 3 hits. -/
theorem expectedHits_roundtrip_witness :
    getExpectedHits (setExpectedHits mkGP22 Channel.CH1 3) Channel.CH1 = 3 ∧
    ∀ other : Channel, other ≠ Channel.CH1 →
      getExpectedHits (setExpectedHits mkGP22 Channel.CH1 3) other =
        getExpectedHits mkGP22 other :=
  expectedHits_roundtrip mkGP22 Channel.CH1 3 (by decide) (by decide)

/-- Claim C7: out-of-range arguments change no bits of the register file:
`setExpectedHits` with more than 4 hits and `setClkPreDiv` with a divider
outside {1, 2, 4} leave the configuration array exactly as it was. -/
theorem out_of_range_noop (s : GP22State) (channel : Channel) (hits div : Nat)
    (hh : 4 < hits) (hd : ¬(div = 1 ∨ div = 2 ∨ div = 4)) :
    (setExpectedHits s channel hits).config = s.config ∧
    (setClkPreDiv s div).config = s.config := by
  push_neg at hd
  obtain ⟨h1, h2, h4⟩ := hd
  constructor
  · simp only [setExpectedHits, if_neg (by omega : ¬ hits ≤ 4)]
  · have hc : (div == 1 || div == 2 || div == 4) = false := by
      simp [h1, h2, h4]
    simp only [setClkPreDiv, hc, Bool.false_eq_true, if_false, updateConversionFactor]

/-- Witness for the C7 theorem at the default state, 5 hits, divider 3. -/
theorem out_of_range_noop_witness :
    (setExpectedHits mkGP22 Channel.CH1 5).config = mkGP22.config ∧
    (setClkPreDiv mkGP22 3).config = mkGP22.config :=
  out_of_range_noop mkGP22 Channel.CH1 5 3 (by decide) (by decide)

/-- Claim C4: from any state with quad resolution active, switching to
measurement mode 1 downgrades to double resolution: afterwards
`isDoubleRes()` is true and `isQuadRes()` is false. -/
theorem setMeasurementMode1_downgrades_quad (s : GP22State)
    (hq : isQuadRes s = true) :
    isDoubleRes (setMeasurementMode s 1) = true ∧
    isQuadRes (setMeasurementMode s 1) = false := by
  constructor
  · have h := isDoubleRes_setDoubleRes s
    simp only [setMeasurementMode, hq, beq_self_eq_true, if_true]
    exact h
  · have h := isQuadRes_setDoubleRes s
    simp only [setMeasurementMode, hq, beq_self_eq_true, if_true]
    exact h

/-- Witness for the C4 theorem: the default state has quad resolution on. -/
theorem setMeasurementMode1_downgrades_quad_witness :
    isDoubleRes (setMeasurementMode mkGP22 1) = true ∧
    isQuadRes (setMeasurementMode mkGP22 1) = false :=
  setMeasurementMode1_downgrades_quad mkGP22 (by decide)

/-! Invariant of all reachable driver states: the double- and quad-
resolution bits are never both set, and the cached conversion factor
always matches the current clock pre-divider. -/

lemma excl_of_quad_false {t : GP22State} (h : isQuadRes t = false) :
    ¬(isDoubleRes t = true ∧ isQuadRes t = true) :=
  fun hc => by simp [h] at hc

lemma reachable_inv {s : GP22State} (h : Reachable s) :
    ¬(isDoubleRes s = true ∧ isQuadRes s = true) ∧
    s.conversionFactor =
      (1 / 4000000 : ℚ) * (1 / 2 ^ 16) * 1000000 * (getClkPreDiv s : ℚ) := by
  induction h with
  | init => exact ⟨by decide, rfl⟩
  | measurementMode s mode hs ih =>
    refine ⟨?_, ?_⟩
    · simp only [setMeasurementMode]
      split
      · split
        · exact excl_of_quad_false (isQuadRes_setDoubleRes s)
        · exact ih.1
      · split
        · exact ih.1
        · exact ih.1
    · simp only [setMeasurementMode]
      split
      · split
        · exact ih.2
        · exact ih.2
      · split
        · exact ih.2
        · exact ih.2
  | clkPreDiv s div hs ih => exact ⟨ih.1, rfl⟩
  | expectedHits s channel hits hs ih => exact ih
  | hit1Op s op hs ih => exact ih
  | hit2Op s op hs ih => exact ih
  | aluInstruction s hit1Op hit2Op hs ih => exact ih
  | edgeSensitivity s start stop1 stop2 hs ih => exact ih
  | singleRes s hs ih => exact ⟨excl_of_quad_false (isQuadRes_setSingleRes s), ih.2⟩
  | doubleRes s hs ih => exact ⟨excl_of_quad_false (isQuadRes_setDoubleRes s), ih.2⟩
  | quadRes s hs ih => rw [setQuadRes_eq]; exact ih
  | autoCalc s onOff hs ih => exact ih
  | firstWaveMode s onOff hs ih => exact ih
  | firstWaveDelays s stop1 stop2 stop3 hs ih => exact ih
  | pulseWidth s onOff hs ih => exact ih
  | firstWaveRisingEdge s onOff hs ih => exact ih
  | firstWaveOffset s offset hs ih => exact ih
  | status s byte1 byte2 hs ih => exact ih

/-- Claim C3: in every reachable state exactly one of `isSingleRes()`,
`isDoubleRes()`, `isQuadRes()` returns true; `setSingleRes()` clears both
the double and the quad bit; and `setQuadRes()` followed by
`setDoubleRes()` leaves double active and quad inactive. -/
theorem resolution_exclusivity :
    (∀ s : GP22State, Reachable s →
      (isSingleRes s = true ∧ isDoubleRes s = false ∧ isQuadRes s = false) ∨
      (isSingleRes s = false ∧ isDoubleRes s = true ∧ isQuadRes s = false) ∨
      (isSingleRes s = false ∧ isDoubleRes s = false ∧ isQuadRes s = true)) ∧
    (∀ s : GP22State,
      isDoubleRes (setSingleRes s) = false ∧ isQuadRes (setSingleRes s) = false) ∧
    (∀ s : GP22State,
      isDoubleRes (setDoubleRes (setQuadRes s)) = true ∧
      isQuadRes (setDoubleRes (setQuadRes s)) = false) := by
  refine ⟨?_, ?_, ?_⟩
  · intro s hs
    have hx := (reachable_inv hs).1
    cases hd : isDoubleRes s <;> cases hq : isQuadRes s
    · exact Or.inl ⟨by simp [isSingleRes, hd, hq], rfl, rfl⟩
    · exact Or.inr (Or.inr ⟨by simp [isSingleRes, hd, hq], rfl, rfl⟩)
    · exact Or.inr (Or.inl ⟨by simp [isSingleRes, hd, hq], rfl, rfl⟩)
    · exact absurd ⟨hd, hq⟩ hx
  · exact fun s => ⟨isDoubleRes_setSingleRes s, isQuadRes_setSingleRes s⟩
  · exact fun s => ⟨isDoubleRes_setDoubleRes _, isQuadRes_setDoubleRes _⟩

/-- Witness for the C3 theorem at the freshly constructed state. -/
theorem resolution_exclusivity_witness :
    (isSingleRes mkGP22 = true ∧ isDoubleRes mkGP22 = false ∧ isQuadRes mkGP22 = false) ∨
    (isSingleRes mkGP22 = false ∧ isDoubleRes mkGP22 = true ∧ isQuadRes mkGP22 = false) ∨
    (isSingleRes mkGP22 = false ∧ isDoubleRes mkGP22 = false ∧ isQuadRes mkGP22 = true) :=
  resolution_exclusivity.1 mkGP22 Reachable.init

/-- Claim C6: in every reachable state the cached conversion factor equals
2 to the minus 16 times (1 / 4000000) times 1000000 times the current
clock pre-divider (it is recomputed inside `setClkPreDiv` and at
construction); `measConv(raw)` returns the raw value times the factor;
and `setClkPreDiv` with a divider outside {1, 2, 4} leaves the stored
divider bits and the factor unchanged.  Floats are modelled as exact
rationals. -/
theorem conversionFactor_spec :
    (∀ s : GP22State, Reachable s →
      s.conversionFactor =
        (1 / 2 ^ 16 : ℚ) * (1 / 4000000) * 1000000 * (getClkPreDiv s : ℚ)) ∧
    (∀ (s : GP22State) (input : Int),
      measConv s input = (input : ℚ) * s.conversionFactor) ∧
    (∀ (s : GP22State) (div : Nat), Reachable s → ¬(div = 1 ∨ div = 2 ∨ div = 4) →
      (setClkPreDiv s div).config.reg0.b1 = s.config.reg0.b1 ∧
      (setClkPreDiv s div).conversionFactor = s.conversionFactor) := by
  refine ⟨?_, fun s input => rfl, ?_⟩
  · intro s hs
    rw [(reachable_inv hs).2]
    ring
  · intro s div hs hd
    push_neg at hd
    obtain ⟨h1, h2, h4⟩ := hd
    have hc : (div == 1 || div == 2 || div == 4) = false := by simp [h1, h2, h4]
    constructor
    · simp only [setClkPreDiv, hc, Bool.false_eq_true, if_false, updateConversionFactor]
    · simp only [setClkPreDiv, hc, Bool.false_eq_true, if_false, updateConversionFactor]
      rw [(reachable_inv hs).2]
      rfl

/-- Witness for the C6 theorem at the freshly constructed state and the
invalid divider 3. -/
theorem conversionFactor_spec_witness :
    mkGP22.conversionFactor =
      (1 / 2 ^ 16 : ℚ) * (1 / 4000000) * 1000000 * (getClkPreDiv mkGP22 : ℚ) ∧
    measConv mkGP22 5 = (5 : ℚ) * mkGP22.conversionFactor ∧
    (setClkPreDiv mkGP22 3).config.reg0.b1 = mkGP22.config.reg0.b1 ∧
    (setClkPreDiv mkGP22 3).conversionFactor = mkGP22.conversionFactor :=
  ⟨conversionFactor_spec.1 mkGP22 Reachable.init,
   conversionFactor_spec.2.1 mkGP22 5,
   (conversionFactor_spec.2.2 mkGP22 3 Reachable.init (by decide)).1,
   (conversionFactor_spec.2.2 mkGP22 3 Reachable.init (by decide)).2⟩

end GP22
